import Mathlib

/-!
Verification of the validation-and-dispatch layer of `prml/linear/regressor.py`
(class `Regressor`).

The embedding models:
* numpy ndarrays by their shape (a list of dimension sizes, so `ndim` is the
  list length) and dtype; every non-ndarray Python value is collapsed into a
  `pyobj` constructor, since the layer only ever tests `isinstance(·, np.ndarray)`;
* the exceptions raised by the layer: `ValueError` (the spec's
  ShapeOrTypeError) with its message, and `NotImplementedError` (the spec's
  CapabilityError);
* a `Regressor` instance as a record over an abstract fitted-parameter state
  type `σ`: the optional `n_features` attribute, one optional underlying
  implementation per capability (`hasattr` probes become `Option.isSome`),
  and the current state;
* each public operation as a function returning an `Outcome`: the Python
  return value or the exception propagated to the caller, the model after the
  call (exceptions leave `self` untouched), and the ordered trace of calls
  made to underlying capability implementations, each recorded with the exact
  arguments it received.
-/

namespace PRML

/-- numpy dtypes, as far as this layer can observe them. -/
inductive DType where
  | float64
  | int64
  | str_
  | object_
deriving DecidableEq, Repr

/-- Whether a dtype is numeric. The validation layer never consults this. -/
def DType.isNumeric : DType → Bool
  | .float64 => true
  | .int64 => true
  | .str_ => false
  | .object_ => false

/-- A Python value passed to an entry point: a numpy ndarray (shape and
dtype), or any non-ndarray object (described by a string). -/
inductive PyVal where
  | ndarray (shape : List Nat) (dtype : DType)
  | pyobj (desc : String)
deriving DecidableEq, Repr

/-- Exceptions raised by this layer. `valueError` is the spec's
ShapeOrTypeError; `notImplementedError` is the spec's CapabilityError. -/
inductive PyError where
  | valueError (msg : String)
  | notImplementedError
deriving DecidableEq, Repr

/-- The `**kwargs` configuration map, opaque at this layer. -/
abbrev Config := List (String × PyVal)

/-- Record of one invocation of an underlying capability implementation,
with the exact arguments forwarded to it. -/
inductive Call where
  | ml (X t : PyVal)
  | map (X t : PyVal)
  | bayes (X t : PyVal)
  | empirical_bayes (X t : PyVal) (kwargs : Config)
  | predict (X : PyVal) (kwargs : Config)
deriving DecidableEq, Repr

/-- A `Regressor` instance. `σ` is the abstract fitted-parameter state owned
by the concrete implementation. A field holding `none` models the absence of
the corresponding attribute (`hasattr` is false). Estimation implementations
mutate the state; `_predict` may read and (in general) replace the state and
returns a value. -/
structure Model (σ : Type) where
  n_features : Option Nat
  _ml : Option (σ → PyVal → PyVal → σ)
  _map : Option (σ → PyVal → PyVal → σ)
  _bayes : Option (σ → PyVal → PyVal → σ)
  _empirical_bayes : Option (σ → PyVal → PyVal → Config → σ)
  _predict : Option (σ → PyVal → Config → σ × PyVal)
  state : σ

/-- Source `Regressor._check_input`: `isinstance` test, then `X.ndim != 2`, then the
`n_features` column-count test (`np.size(X, 1)` is the size along axis 1). -/
def Model._check_input {σ : Type} (self : Model σ) (X : PyVal) : Except PyError Unit :=
  match X with
  | .pyobj _ => .error (.valueError "X(input) is not np.ndarray")
  | .ndarray shape _ =>
    if shape.length ≠ 2 then
      .error (.valueError "X(input) is not two dimensional array")
    else
      match self.n_features with
      | some k =>
        if k ≠ shape.getD 1 0 then
          .error (.valueError "mismatch in dimension 1 of X(input)")
        else
          .ok ()
      | none => .ok ()

/-- Source `Regressor._check_target`: `isinstance` test, then `t.ndim != 1`. -/
def Model._check_target {σ : Type} (_self : Model σ) (t : PyVal) : Except PyError Unit :=
  match t with
  | .pyobj _ => .error (.valueError "t(target) must be np.ndarray")
  | .ndarray shape _ =>
    if shape.length ≠ 1 then
      .error (.valueError "t(target) must be one dimenional array")
    else
      .ok ()

/-- The observable outcome of one public operation: the value returned to the
caller (`.ok` of the Python return value, `none` for the `None`-returning
estimation operations) or the exception raised; the model after the call;
and the trace of underlying implementations invoked. -/
structure Outcome (σ : Type) where
  result : Except PyError (Option PyVal)
  model : Model σ
  calls : List Call

/-- Source `Regressor.ml`: validate `X`, validate `t`, then dispatch to `_ml` or
raise `NotImplementedError`. -/
def Model.ml {σ : Type} (self : Model σ) (X t : PyVal) : Outcome σ :=
  match self._check_input X with
  | .error e => ⟨.error e, self, []⟩
  | .ok _ =>
    match self._check_target t with
    | .error e => ⟨.error e, self, []⟩
    | .ok _ =>
      match self._ml with
      | some f => ⟨.ok none, { self with state := f self.state X t }, [.ml X t]⟩
      | none => ⟨.error .notImplementedError, self, []⟩

/-- Source `Regressor.map`: validate `X`, validate `t`, then dispatch to `_map` or
raise `NotImplementedError`. -/
def Model.map {σ : Type} (self : Model σ) (X t : PyVal) : Outcome σ :=
  match self._check_input X with
  | .error e => ⟨.error e, self, []⟩
  | .ok _ =>
    match self._check_target t with
    | .error e => ⟨.error e, self, []⟩
    | .ok _ =>
      match self._map with
      | some f => ⟨.ok none, { self with state := f self.state X t }, [.map X t]⟩
      | none => ⟨.error .notImplementedError, self, []⟩

/-- Source `Regressor.bayes`: validate `X`, validate `t`, then dispatch to `_bayes`
or raise `NotImplementedError`. -/
def Model.bayes {σ : Type} (self : Model σ) (X t : PyVal) : Outcome σ :=
  match self._check_input X with
  | .error e => ⟨.error e, self, []⟩
  | .ok _ =>
    match self._check_target t with
    | .error e => ⟨.error e, self, []⟩
    | .ok _ =>
      match self._bayes with
      | some f => ⟨.ok none, { self with state := f self.state X t }, [.bayes X t]⟩
      | none => ⟨.error .notImplementedError, self, []⟩

/-- Source `Regressor.empirical_bayes`: validate `X`, validate `t`, then dispatch to
`_empirical_bayes`, forwarding `**kwargs` verbatim, or raise
`NotImplementedError`. -/
def Model.empirical_bayes {σ : Type} (self : Model σ) (X t : PyVal) (kwargs : Config) :
    Outcome σ :=
  match self._check_input X with
  | .error e => ⟨.error e, self, []⟩
  | .ok _ =>
    match self._check_target t with
    | .error e => ⟨.error e, self, []⟩
    | .ok _ =>
      match self._empirical_bayes with
      | some f =>
        ⟨.ok none, { self with state := f self.state X t kwargs }, [.empirical_bayes X t kwargs]⟩
      | none => ⟨.error .notImplementedError, self, []⟩

/-- Source `Regressor.predict`: validate `X`, then dispatch to `_predict`,
forwarding `**kwargs` verbatim and returning its value, or raise
`NotImplementedError`. -/
def Model.predict {σ : Type} (self : Model σ) (X : PyVal) (kwargs : Config) : Outcome σ :=
  match self._check_input X with
  | .error e => ⟨.error e, self, []⟩
  | .ok _ =>
    match self._predict with
    | some f =>
      ⟨.ok (some (f self.state X kwargs).2), { self with state := (f self.state X kwargs).1 },
        [.predict X kwargs]⟩
    | none => ⟨.error .notImplementedError, self, []⟩

/-- Modelled from the spec: the concrete `_predict` implementations live in
the concrete regressor subclasses, which are not part of the reviewed source;
per the spec's dispatch table a conforming predictor, given a FeatureMatrix
with `sample_size` rows, "returns a TargetVector-shaped sequence of length
sample_size; no mutation". -/
def SpecPredictor {σ : Type} (f : σ → PyVal → Config → σ × PyVal) : Prop :=
  ∀ (st : σ) (r c : Nat) (dt : DType) (kwargs : Config),
    (f st (.ndarray [r, c] dt) kwargs).1 = st ∧
    ∃ d2 : DType, (f st (.ndarray [r, c] dt) kwargs).2 = .ndarray [r] d2

/-- A concrete predictor used in witnesses: it returns a float64 vector whose
length is the row count of its input and leaves the state unchanged. -/
def shapePredict : Nat → PyVal → Config → Nat × PyVal :=
  fun st X _ =>
    (st, match X with
      | .ndarray shape _ => .ndarray [shape.getD 0 0] .float64
      | .pyobj _ => .ndarray [0] .float64)

/-- A concrete model with no fixed `n_features` and no capability at all. -/
def noCapModel : Model Nat :=
  { n_features := none
    _ml := none
    _map := none
    _bayes := none
    _empirical_bayes := none
    _predict := none
    state := 0 }

/-- A concrete model with `n_features = 3` and every capability present. -/
def fullModel : Model Nat :=
  { n_features := some 3
    _ml := some fun s _ _ => s + 1
    _map := some fun s _ _ => s + 2
    _bayes := some fun s _ _ => s + 3
    _empirical_bayes := some fun s _ _ kwargs => s + kwargs.length
    _predict := some shapePredict
    state := 0 }

/-! Helper lemmas: how each operation behaves on each branch of validation
and dispatch, and basic facts about the validators. -/

theorem check_input_not_ndarray {σ : Type} (m : Model σ) (d : String) :
    m._check_input (.pyobj d) = .error (.valueError "X(input) is not np.ndarray") := rfl

theorem check_input_bad_ndim {σ : Type} (m : Model σ) {shape : List Nat} (dt : DType)
    (h : shape.length ≠ 2) :
    m._check_input (.ndarray shape dt)
      = .error (.valueError "X(input) is not two dimensional array") := by
  unfold Model._check_input
  simp [h]

theorem check_input_mismatch {σ : Type} {m : Model σ} {k : Nat} (r c : Nat) (dt : DType)
    (hm : m.n_features = some k) (hc : c ≠ k) :
    m._check_input (.ndarray [r, c] dt)
      = .error (.valueError "mismatch in dimension 1 of X(input)") := by
  unfold Model._check_input
  simp [hm]
  exact fun h => hc h.symm

theorem check_input_ok_of_no_n_features {σ : Type} {m : Model σ} (r c : Nat) (dt : DType)
    (hm : m.n_features = none) :
    m._check_input (.ndarray [r, c] dt) = .ok () := by
  unfold Model._check_input
  simp [hm]

theorem check_target_bad_ndim {σ : Type} (m : Model σ) {shape : List Nat} (dt : DType)
    (h : shape.length ≠ 1) :
    m._check_target (.ndarray shape dt)
      = .error (.valueError "t(target) must be one dimenional array") := by
  unfold Model._check_target
  simp [h]

theorem check_target_ok_rank_one {σ : Type} (m : Model σ) (n : Nat) (dt : DType) :
    m._check_target (.ndarray [n] dt) = .ok () := rfl

theorem ml_input_error {σ : Type} {m : Model σ} {X : PyVal} {e : PyError} (t : PyVal)
    (h : m._check_input X = .error e) : m.ml X t = ⟨.error e, m, []⟩ := by
  unfold Model.ml
  rw [h]

theorem map_input_error {σ : Type} {m : Model σ} {X : PyVal} {e : PyError} (t : PyVal)
    (h : m._check_input X = .error e) : m.map X t = ⟨.error e, m, []⟩ := by
  unfold Model.map
  rw [h]

theorem bayes_input_error {σ : Type} {m : Model σ} {X : PyVal} {e : PyError} (t : PyVal)
    (h : m._check_input X = .error e) : m.bayes X t = ⟨.error e, m, []⟩ := by
  unfold Model.bayes
  rw [h]

theorem eb_input_error {σ : Type} {m : Model σ} {X : PyVal} {e : PyError} (t : PyVal)
    (kwargs : Config) (h : m._check_input X = .error e) :
    m.empirical_bayes X t kwargs = ⟨.error e, m, []⟩ := by
  unfold Model.empirical_bayes
  rw [h]

theorem predict_input_error {σ : Type} {m : Model σ} {X : PyVal} {e : PyError}
    (kwargs : Config) (h : m._check_input X = .error e) :
    m.predict X kwargs = ⟨.error e, m, []⟩ := by
  unfold Model.predict
  rw [h]

theorem ml_target_error {σ : Type} {m : Model σ} {X t : PyVal} {e : PyError}
    (hX : m._check_input X = .ok ()) (ht : m._check_target t = .error e) :
    m.ml X t = ⟨.error e, m, []⟩ := by
  unfold Model.ml
  rw [hX, ht]

theorem map_target_error {σ : Type} {m : Model σ} {X t : PyVal} {e : PyError}
    (hX : m._check_input X = .ok ()) (ht : m._check_target t = .error e) :
    m.map X t = ⟨.error e, m, []⟩ := by
  unfold Model.map
  rw [hX, ht]

theorem bayes_target_error {σ : Type} {m : Model σ} {X t : PyVal} {e : PyError}
    (hX : m._check_input X = .ok ()) (ht : m._check_target t = .error e) :
    m.bayes X t = ⟨.error e, m, []⟩ := by
  unfold Model.bayes
  rw [hX, ht]

theorem eb_target_error {σ : Type} {m : Model σ} {X t : PyVal} {e : PyError}
    (kwargs : Config) (hX : m._check_input X = .ok ()) (ht : m._check_target t = .error e) :
    m.empirical_bayes X t kwargs = ⟨.error e, m, []⟩ := by
  unfold Model.empirical_bayes
  rw [hX, ht]

theorem ml_dispatch {σ : Type} {m : Model σ} {X t : PyVal}
    (hX : m._check_input X = .ok ()) (ht : m._check_target t = .ok ()) :
    m.ml X t = (match m._ml with
      | some f => ⟨.ok none, { m with state := f m.state X t }, [.ml X t]⟩
      | none => ⟨.error .notImplementedError, m, []⟩) := by
  unfold Model.ml
  rw [hX, ht]

theorem map_dispatch {σ : Type} {m : Model σ} {X t : PyVal}
    (hX : m._check_input X = .ok ()) (ht : m._check_target t = .ok ()) :
    m.map X t = (match m._map with
      | some f => ⟨.ok none, { m with state := f m.state X t }, [.map X t]⟩
      | none => ⟨.error .notImplementedError, m, []⟩) := by
  unfold Model.map
  rw [hX, ht]

theorem bayes_dispatch {σ : Type} {m : Model σ} {X t : PyVal}
    (hX : m._check_input X = .ok ()) (ht : m._check_target t = .ok ()) :
    m.bayes X t = (match m._bayes with
      | some f => ⟨.ok none, { m with state := f m.state X t }, [.bayes X t]⟩
      | none => ⟨.error .notImplementedError, m, []⟩) := by
  unfold Model.bayes
  rw [hX, ht]

theorem eb_dispatch {σ : Type} {m : Model σ} {X t : PyVal} (kwargs : Config)
    (hX : m._check_input X = .ok ()) (ht : m._check_target t = .ok ()) :
    m.empirical_bayes X t kwargs = (match m._empirical_bayes with
      | some f =>
        ⟨.ok none, { m with state := f m.state X t kwargs }, [.empirical_bayes X t kwargs]⟩
      | none => ⟨.error .notImplementedError, m, []⟩) := by
  unfold Model.empirical_bayes
  rw [hX, ht]

theorem predict_dispatch {σ : Type} {m : Model σ} {X : PyVal} (kwargs : Config)
    (hX : m._check_input X = .ok ()) :
    m.predict X kwargs = (match m._predict with
      | some f =>
        ⟨.ok (some (f m.state X kwargs).2), { m with state := (f m.state X kwargs).1 },
          [.predict X kwargs]⟩
      | none => ⟨.error .notImplementedError, m, []⟩) := by
  unfold Model.predict
  rw [hX]

theorem predict_some {σ : Type} {m : Model σ} {X : PyVal}
    {f : σ → PyVal → Config → σ × PyVal} (kwargs : Config)
    (hX : m._check_input X = .ok ()) (hf : m._predict = some f) :
    m.predict X kwargs
      = ⟨.ok (some (f m.state X kwargs).2), { m with state := (f m.state X kwargs).1 },
          [.predict X kwargs]⟩ := by
  unfold Model.predict
  rw [hX, hf]

theorem ml_preserves_n_features {σ : Type} (m : Model σ) (X t : PyVal) :
    (m.ml X t).model.n_features = m.n_features := by
  unfold Model.ml
  cases h1 : m._check_input X with
  | error e => rfl
  | ok u =>
    cases h2 : m._check_target t with
    | error e => rfl
    | ok u =>
      cases h3 : m._ml with
      | none => rfl
      | some f => rfl

/-- C2: for every input `X` whose rank is not 2, each of the five entry-point
operations `ml`, `map`, `bayes`, `empirical_bayes`, and `predict` raises a
ShapeOrTypeError (a `ValueError`) before any dispatch occurs (the call trace
is empty) and performs no mutation of the model's state (the model is
returned unchanged). -/
theorem rank_ne_two_rejected {σ : Type} (m : Model σ) (shape : List Nat) (dt : DType)
    (t : PyVal) (kwargs : Config) (h : shape.length ≠ 2) :
    m.ml (.ndarray shape dt) t
      = ⟨.error (.valueError "X(input) is not two dimensional array"), m, []⟩ ∧
    m.map (.ndarray shape dt) t
      = ⟨.error (.valueError "X(input) is not two dimensional array"), m, []⟩ ∧
    m.bayes (.ndarray shape dt) t
      = ⟨.error (.valueError "X(input) is not two dimensional array"), m, []⟩ ∧
    m.empirical_bayes (.ndarray shape dt) t kwargs
      = ⟨.error (.valueError "X(input) is not two dimensional array"), m, []⟩ ∧
    m.predict (.ndarray shape dt) kwargs
      = ⟨.error (.valueError "X(input) is not two dimensional array"), m, []⟩ := by
  have hX := check_input_bad_ndim m dt h
  exact ⟨ml_input_error t hX, map_input_error t hX, bayes_input_error t hX,
    eb_input_error t kwargs hX, predict_input_error kwargs hX⟩

/-- Witness for `rank_ne_two_rejected` at a concrete rank-3 input. -/
theorem rank_ne_two_rejected_witness :
    (([2, 3, 4] : List Nat).length ≠ 2) ∧
    fullModel.ml (.ndarray [2, 3, 4] .float64) (.pyobj "list")
      = ⟨.error (.valueError "X(input) is not two dimensional array"), fullModel, []⟩ :=
  ⟨by decide,
    (rank_ne_two_rejected fullModel [2, 3, 4] .float64 (.pyobj "list") [] (by decide)).1⟩

/-- C3: for every model with a fixed feature dimensionality `n_features = k`
(`k ≥ 1`), calling any of the five operations with a rank-2 ndarray whose
column count `c` differs from `k` raises a ShapeOrTypeError, with no
dispatch and no mutation. -/
theorem n_features_mismatch_rejected {σ : Type} (m : Model σ) (k r c : Nat) (dt : DType)
    (t : PyVal) (kwargs : Config) (hk : 1 ≤ k) (hm : m.n_features = some k) (hc : c ≠ k) :
    m.ml (.ndarray [r, c] dt) t
      = ⟨.error (.valueError "mismatch in dimension 1 of X(input)"), m, []⟩ ∧
    m.map (.ndarray [r, c] dt) t
      = ⟨.error (.valueError "mismatch in dimension 1 of X(input)"), m, []⟩ ∧
    m.bayes (.ndarray [r, c] dt) t
      = ⟨.error (.valueError "mismatch in dimension 1 of X(input)"), m, []⟩ ∧
    m.empirical_bayes (.ndarray [r, c] dt) t kwargs
      = ⟨.error (.valueError "mismatch in dimension 1 of X(input)"), m, []⟩ ∧
    m.predict (.ndarray [r, c] dt) kwargs
      = ⟨.error (.valueError "mismatch in dimension 1 of X(input)"), m, []⟩ := by
  have hX := check_input_mismatch r c dt hm hc
  exact ⟨ml_input_error t hX, map_input_error t hX, bayes_input_error t hX,
    eb_input_error t kwargs hX, predict_input_error kwargs hX⟩

/-- Witness for `n_features_mismatch_rejected`: `fullModel` fixes
`n_features = 3` and rejects a 10×4 input. -/
theorem n_features_mismatch_rejected_witness :
    (1 ≤ 3) ∧ fullModel.n_features = some 3 ∧ (4 ≠ 3) ∧
    fullModel.ml (.ndarray [10, 4] .float64) (.ndarray [10] .float64)
      = ⟨.error (.valueError "mismatch in dimension 1 of X(input)"), fullModel, []⟩ :=
  ⟨by decide, rfl, by decide,
    (n_features_mismatch_rejected fullModel 3 10 4 .float64 (.ndarray [10] .float64) []
      (by decide) rfl (by decide)).1⟩

/-- C4: for every target `t` whose rank is not 1, each of the four estimation
operations raises a ShapeOrTypeError and performs no mutation, given that `X`
passed input validation. -/
theorem target_rank_ne_one_rejected {σ : Type} (m : Model σ) (X : PyVal) (shape : List Nat)
    (dt : DType) (kwargs : Config) (hX : m._check_input X = .ok ())
    (h : shape.length ≠ 1) :
    m.ml X (.ndarray shape dt)
      = ⟨.error (.valueError "t(target) must be one dimenional array"), m, []⟩ ∧
    m.map X (.ndarray shape dt)
      = ⟨.error (.valueError "t(target) must be one dimenional array"), m, []⟩ ∧
    m.bayes X (.ndarray shape dt)
      = ⟨.error (.valueError "t(target) must be one dimenional array"), m, []⟩ ∧
    m.empirical_bayes X (.ndarray shape dt) kwargs
      = ⟨.error (.valueError "t(target) must be one dimenional array"), m, []⟩ := by
  have ht := check_target_bad_ndim m dt h
  exact ⟨ml_target_error hX ht, map_target_error hX ht, bayes_target_error hX ht,
    eb_target_error kwargs hX ht⟩

/-- Witness for `target_rank_ne_one_rejected` at a rank-2 target. -/
theorem target_rank_ne_one_rejected_witness :
    fullModel._check_input (.ndarray [10, 3] .float64) = .ok () ∧
    (([10, 1] : List Nat).length ≠ 1) ∧
    fullModel.empirical_bayes (.ndarray [10, 3] .float64) (.ndarray [10, 1] .float64) []
      = ⟨.error (.valueError "t(target) must be one dimenional array"), fullModel, []⟩ :=
  ⟨rfl, by decide,
    (target_rank_ne_one_rejected fullModel (.ndarray [10, 3] .float64) [10, 1] .float64 []
      rfl (by decide)).2.2.2⟩

/-- C9: in every estimation operation, `X` is validated strictly before `t`:
whenever input validation of `X` fails with error `e`, the operation fails
with exactly `e` for every `t` whatsoever (so `t`'s validation is never
reached), with no dispatch and no mutation. -/
theorem input_validated_before_target {σ : Type} (m : Model σ) (X t : PyVal) (e : PyError)
    (kwargs : Config) (hX : m._check_input X = .error e) :
    m.ml X t = ⟨.error e, m, []⟩ ∧
    m.map X t = ⟨.error e, m, []⟩ ∧
    m.bayes X t = ⟨.error e, m, []⟩ ∧
    m.empirical_bayes X t kwargs = ⟨.error e, m, []⟩ :=
  ⟨ml_input_error t hX, map_input_error t hX, bayes_input_error t hX,
    eb_input_error t kwargs hX⟩

/-- Witness for `input_validated_before_target`: both `X` and `t` are
non-ndarrays, and the error raised is the one about `X`. -/
theorem input_validated_before_target_witness :
    fullModel._check_input (.pyobj "a list")
      = .error (.valueError "X(input) is not np.ndarray") ∧
    fullModel.ml (.pyobj "a list") (.pyobj "another list")
      = ⟨.error (.valueError "X(input) is not np.ndarray"), fullModel, []⟩ :=
  ⟨rfl,
    (input_validated_before_target fullModel (.pyobj "a list") (.pyobj "another list")
      (.valueError "X(input) is not np.ndarray") [] rfl).1⟩

/-- C1: for every model lacking the capability an operation requires, invoking
that operation with a valid `X` (and, for the estimation operations, a valid
`t`) raises the CapabilityError (`NotImplementedError`) and never a
ShapeOrTypeError, with no mutation and no dispatch; moreover the capability
check happens only after both validations succeed: if either validation
fails, its ShapeOrTypeError is raised instead, even with the capability
absent. -/
theorem capability_absent_raises_capability_error {σ : Type} (m : Model σ) (X t : PyVal)
    (kwargs : Config) (hX : m._check_input X = .ok ()) (ht : m._check_target t = .ok ()) :
    (m._ml = none → m.ml X t = ⟨.error .notImplementedError, m, []⟩) ∧
    (m._map = none → m.map X t = ⟨.error .notImplementedError, m, []⟩) ∧
    (m._bayes = none → m.bayes X t = ⟨.error .notImplementedError, m, []⟩) ∧
    (m._empirical_bayes = none →
      m.empirical_bayes X t kwargs = ⟨.error .notImplementedError, m, []⟩) ∧
    (m._predict = none → m.predict X kwargs = ⟨.error .notImplementedError, m, []⟩) ∧
    (∀ X' e, m._check_input X' = .error e → m.ml X' t = ⟨.error e, m, []⟩) ∧
    (∀ t' e, m._check_target t' = .error e → m.ml X t' = ⟨.error e, m, []⟩) := by
  refine ⟨fun hc => ?_, fun hc => ?_, fun hc => ?_, fun hc => ?_, fun hc => ?_,
    fun X' e hX' => ml_input_error t hX', fun t' e ht' => ml_target_error hX ht'⟩
  · rw [ml_dispatch hX ht, hc]
  · rw [map_dispatch hX ht, hc]
  · rw [bayes_dispatch hX ht, hc]
  · rw [eb_dispatch kwargs hX ht, hc]
  · rw [predict_dispatch kwargs hX, hc]

/-- Witness for `capability_absent_raises_capability_error`: `noCapModel`
implements nothing, and `ml` on valid inputs raises `NotImplementedError`. -/
theorem capability_absent_raises_capability_error_witness :
    noCapModel._check_input (.ndarray [2, 3] .float64) = .ok () ∧
    noCapModel._check_target (.ndarray [2] .float64) = .ok () ∧
    noCapModel.ml (.ndarray [2, 3] .float64) (.ndarray [2] .float64)
      = ⟨.error .notImplementedError, noCapModel, []⟩ :=
  ⟨rfl, rfl,
    (capability_absent_raises_capability_error noCapModel (.ndarray [2, 3] .float64)
      (.ndarray [2] .float64) [] rfl rfl).1 rfl⟩

/-- C6: for every model exposing the capability an operation requires,
invoking that operation with valid inputs invokes exactly that underlying
implementation exactly once (the full call trace is the single corresponding
call) and no other capability's implementation, and for `empirical_bayes` and
`predict` the configuration map is forwarded verbatim to the underlying
implementation (it appears unchanged both in the recorded call and in the
state transition). -/
theorem capability_dispatch_exact {σ : Type} (m : Model σ) (X t : PyVal) (kwargs : Config)
    (hX : m._check_input X = .ok ()) (ht : m._check_target t = .ok ()) :
    (∀ f, m._ml = some f →
      m.ml X t = ⟨.ok none, { m with state := f m.state X t }, [.ml X t]⟩) ∧
    (∀ f, m._map = some f →
      m.map X t = ⟨.ok none, { m with state := f m.state X t }, [.map X t]⟩) ∧
    (∀ f, m._bayes = some f →
      m.bayes X t = ⟨.ok none, { m with state := f m.state X t }, [.bayes X t]⟩) ∧
    (∀ f, m._empirical_bayes = some f →
      m.empirical_bayes X t kwargs
        = ⟨.ok none, { m with state := f m.state X t kwargs },
            [.empirical_bayes X t kwargs]⟩) ∧
    (∀ f, m._predict = some f →
      m.predict X kwargs
        = ⟨.ok (some (f m.state X kwargs).2), { m with state := (f m.state X kwargs).1 },
            [.predict X kwargs]⟩) := by
  refine ⟨fun f hf => ?_, fun f hf => ?_, fun f hf => ?_, fun f hf => ?_, fun f hf => ?_⟩
  · rw [ml_dispatch hX ht, hf]
  · rw [map_dispatch hX ht, hf]
  · rw [bayes_dispatch hX ht, hf]
  · rw [eb_dispatch kwargs hX ht, hf]
  · rw [predict_dispatch kwargs hX, hf]

/-- Witness for `capability_dispatch_exact`: `fullModel.empirical_bayes` with
one option forwards it verbatim and performs exactly one `_empirical_bayes`
call (the state transition `0 + kwargs.length = 1` sees the option). -/
theorem capability_dispatch_exact_witness :
    fullModel._check_input (.ndarray [10, 3] .int64) = .ok () ∧
    fullModel._check_target (.ndarray [10] .int64) = .ok () ∧
    fullModel.empirical_bayes (.ndarray [10, 3] .int64) (.ndarray [10] .int64)
        [("max_iter", .pyobj "100")]
      = ⟨.ok none, { fullModel with state := 1 },
          [.empirical_bayes (.ndarray [10, 3] .int64) (.ndarray [10] .int64)
            [("max_iter", .pyobj "100")]]⟩ :=
  ⟨rfl, rfl,
    (capability_dispatch_exact fullModel (.ndarray [10, 3] .int64) (.ndarray [10] .int64)
      [("max_iter", .pyobj "100")] rfl rfl).2.2.2.1 _ rfl⟩

/-- C8: this layer does not verify that the target's length equals the
feature matrix's row count: for a rank-2 `X` passing input validation and a
rank-1 `t` of any mismatched length, target validation succeeds too and each
estimation operation proceeds to the capability check, never raising a
ShapeOrTypeError (the result is `ok` when the capability is present and
`NotImplementedError` when it is absent). -/
theorem target_length_not_checked {σ : Type} (m : Model σ) (r c n : Nat) (dX dt : DType)
    (kwargs : Config) (hX : m._check_input (.ndarray [r, c] dX) = .ok ()) (hn : n ≠ r) :
    m._check_target (.ndarray [n] dt) = .ok () ∧
    (m.ml (.ndarray [r, c] dX) (.ndarray [n] dt)).result
      = (if m._ml.isSome then .ok none else .error .notImplementedError) ∧
    (m.map (.ndarray [r, c] dX) (.ndarray [n] dt)).result
      = (if m._map.isSome then .ok none else .error .notImplementedError) ∧
    (m.bayes (.ndarray [r, c] dX) (.ndarray [n] dt)).result
      = (if m._bayes.isSome then .ok none else .error .notImplementedError) ∧
    (m.empirical_bayes (.ndarray [r, c] dX) (.ndarray [n] dt) kwargs).result
      = (if m._empirical_bayes.isSome then .ok none else .error .notImplementedError) := by
  have ht := check_target_ok_rank_one m n dt
  refine ⟨ht, ?_, ?_, ?_, ?_⟩
  · rw [ml_dispatch hX ht]
    cases m._ml <;> rfl
  · rw [map_dispatch hX ht]
    cases m._map <;> rfl
  · rw [bayes_dispatch hX ht]
    cases m._bayes <;> rfl
  · rw [eb_dispatch kwargs hX ht]
    cases m._empirical_bayes <;> rfl

/-- Witness for `target_length_not_checked`: a 10×3 `X` with a length-5 `t`
passes validation and `ml` dispatches. -/
theorem target_length_not_checked_witness :
    fullModel._check_input (.ndarray [10, 3] .float64) = .ok () ∧
    ((5 : Nat) ≠ 10) ∧
    fullModel._check_target (.ndarray [5] .float64) = .ok () ∧
    (fullModel.ml (.ndarray [10, 3] .float64) (.ndarray [5] .float64)).result
      = .ok none :=
  ⟨rfl, by decide, rfl,
    (target_length_not_checked fullModel 10 3 5 .float64 .float64 [] rfl (by decide)).2.1⟩

/-- C5 counterexample: the claim says a rank-2 ndarray with non-numeric
elements fails `check_input` (and a rank-1 non-numeric `t` fails
`check_target`); in the code both succeed — a 2×2 string-dtype ndarray and a
length-3 object-dtype ndarray pass validation. -/
theorem nonnumeric_elements_accepted_counterexample :
    DType.isNumeric .str_ = false ∧
    noCapModel._check_input (.ndarray [2, 2] .str_) = .ok () ∧
    DType.isNumeric .object_ = false ∧
    noCapModel._check_target (.ndarray [3] .object_) = .ok () :=
  ⟨rfl, rfl, rfl, rfl⟩

/-- C5 amended: the Validator checks array-ness and rank but never element
type — a wrong-type ShapeOrTypeError is raised exactly when the argument is
not an ndarray at all, and for ndarrays the validators' verdicts are
completely independent of the element dtype (so non-numeric ndarrays of the
right rank are accepted). -/
theorem validator_ignores_dtype {σ : Type} (m : Model σ) (shape : List Nat)
    (d1 d2 : DType) (desc : String) :
    m._check_input (.ndarray shape d1) = m._check_input (.ndarray shape d2) ∧
    m._check_target (.ndarray shape d1) = m._check_target (.ndarray shape d2) ∧
    m._check_input (.pyobj desc) = .error (.valueError "X(input) is not np.ndarray") ∧
    m._check_target (.pyobj desc) = .error (.valueError "t(target) must be np.ndarray") :=
  ⟨rfl, rfl, rfl, rfl⟩

/-- C7: for every model exposing the predictor capability (with the concrete
`_predict` modelled from the spec, see `SpecPredictor`) and every valid
rank-2 input with `r` rows, `predict` returns a rank-1 vector of length `r`
and performs no mutation of the model's state. -/
theorem predict_returns_target_vector {σ : Type} (m : Model σ)
    (f : σ → PyVal → Config → σ × PyVal) (r c : Nat) (dt : DType) (kwargs : Config)
    (hf : m._predict = some f) (hspec : SpecPredictor f)
    (hX : m._check_input (.ndarray [r, c] dt) = .ok ()) :
    (∃ d2 : DType, (m.predict (.ndarray [r, c] dt) kwargs).result
      = .ok (some (.ndarray [r] d2))) ∧
    (m.predict (.ndarray [r, c] dt) kwargs).model = m ∧
    (m.predict (.ndarray [r, c] dt) kwargs).calls
      = [.predict (.ndarray [r, c] dt) kwargs] := by
  obtain ⟨hst, d2, hval⟩ := hspec m.state r c dt kwargs
  rw [predict_some kwargs hX hf]
  refine ⟨⟨d2, ?_⟩, ?_, rfl⟩
  · rw [hval]
  · show { m with state := (f m.state (PyVal.ndarray [r, c] dt) kwargs).1 } = m
    rw [hst]

/-- Witness for `predict_returns_target_vector`: `fullModel`'s predictor on a
10×3 input returns a length-10 vector and leaves the model unchanged. -/
theorem predict_returns_target_vector_witness :
    fullModel._predict = some shapePredict ∧
    SpecPredictor shapePredict ∧
    fullModel._check_input (.ndarray [10, 3] .float64) = .ok () ∧
    (∃ d2 : DType, (fullModel.predict (.ndarray [10, 3] .float64) []).result
      = .ok (some (.ndarray [10] d2))) ∧
    (fullModel.predict (.ndarray [10, 3] .float64) []).model = fullModel :=
  ⟨rfl, fun st r c dt kwargs => ⟨rfl, DType.float64, rfl⟩, rfl,
    (predict_returns_target_vector fullModel shapePredict 10 3 .float64 [] rfl
      (fun st r c dt kwargs => ⟨rfl, DType.float64, rfl⟩) rfl).1,
    (predict_returns_target_vector fullModel shapePredict 10 3 .float64 [] rfl
      (fun st r c dt kwargs => ⟨rfl, DType.float64, rfl⟩) rfl).2.1⟩

/-- C10: for every model with no fixed `n_features` attribute, input
validation accepts every rank-2 ndarray regardless of column count, including
zero columns; and after a first `ml` call with a matrix of `c` columns, a
second matrix with a different column count `c2` still passes validation. -/
theorem no_n_features_accepts_any_column_count {σ : Type} (m : Model σ) (t : PyVal)
    (r c r2 c2 : Nat) (dt dt2 : DType) (hm : m.n_features = none) (hcc : c ≠ c2) :
    m._check_input (.ndarray [r, c] dt) = .ok () ∧
    m._check_input (.ndarray [r, 0] dt) = .ok () ∧
    (m.ml (.ndarray [r, c] dt) t).model._check_input (.ndarray [r2, c2] dt2)
      = .ok () := by
  refine ⟨check_input_ok_of_no_n_features r c dt hm,
    check_input_ok_of_no_n_features r 0 dt hm, ?_⟩
  have h2 : (m.ml (.ndarray [r, c] dt) t).model.n_features = none := by
    rw [ml_preserves_n_features]
    exact hm
  exact check_input_ok_of_no_n_features r2 c2 dt2 h2

/-- Witness for `no_n_features_accepts_any_column_count`: `noCapModel` fixes
no feature count; a 4×7 matrix, a 4×0 matrix, and (after an `ml` call) a 5×2
matrix all pass input validation. -/
theorem no_n_features_accepts_any_column_count_witness :
    noCapModel.n_features = none ∧ ((7 : Nat) ≠ 2) ∧
    noCapModel._check_input (.ndarray [4, 7] .float64) = .ok () ∧
    noCapModel._check_input (.ndarray [4, 0] .float64) = .ok () ∧
    (noCapModel.ml (.ndarray [4, 7] .float64) (.ndarray [4] .float64)).model._check_input
      (.ndarray [5, 2] .float64) = .ok () := by
  have h := no_n_features_accepts_any_column_count noCapModel (.ndarray [4] .float64)
    4 7 5 2 .float64 .float64 rfl (by decide)
  exact ⟨rfl, by decide, h.1, h.2.1, h.2.2⟩

end PRML
